import Mathlib

/-!
Verification of the offline ammonia risk engine
(`src/ammonia-app/src/ammonia_engine.js`).

The engine is a pure numeric pipeline:
inputs → feature engineering → standard scaling → regression surrogate
(`forestPredict`) → `expm1` → Emerson equilibrium physics → risk
classification.  We embed it shallowly over `ℝ` (JavaScript numbers read
as reals), and separately over a small `JSVal` type that models the
IEEE special values NaN and ±Infinity with JavaScript's propagation
rules, for the claims whose content is exactly that special-value
behaviour (division by zero in the heatmap grid, NaN falling through the
classifier).
-/

noncomputable section

/-- Risk tiers returned by the classifier. -/
inductive RiskTier where
  | SAFE : RiskTier
  | WARNING : RiskTier
  | CRITICAL : RiskTier
deriving DecidableEq

/-- Scaler means, feature order [Temp, EC, pH, pH_Temp, EC_pH]. -/
def SCALER_MEANS : Fin 5 → ℝ := ![26.5, 1180.0, 7.2, 191.28, 8496.0]

/-- Scaler standard deviations, same feature order. -/
def SCALER_STDS : Fin 5 → ℝ := ![3.8, 350.0, 0.45, 30.5, 2800.0]

/-- StandardScaler transform: `(v - mean) / std` componentwise. -/
def standardScale (features : Fin 5 → ℝ) : Fin 5 → ℝ :=
  fun i => (features i - SCALER_MEANS i) / SCALER_STDS i

/-- Model intercept (baseline log1p TAN at mean conditions). -/
def MODEL_intercept : ℝ := -0.12

/-- Linear weight on scaled temperature. -/
def MODEL_w_Temp : ℝ := 0.08

/-- Linear weight on scaled conductivity. -/
def MODEL_w_EC : ℝ := 0.22

/-- Linear weight on scaled pH. -/
def MODEL_w_pH : ℝ := -0.05

/-- Linear weight on the scaled pH-temperature interaction feature. -/
def MODEL_w_pH_Temp : ℝ := 0.12

/-- Linear weight on the scaled conductivity-pH interaction feature. -/
def MODEL_w_EC_pH : ℝ := 0.11

/-- Saturation cap used by the tanh envelope. -/
def MODEL_saturation : ℝ := 2.8

/-- Regression surrogate, transcribed from `forestPredict`:
linear combination, then three second-order cross terms, then the tanh
saturation envelope, then the hard clamp `max(-0.05, min(pred, 3.2))`. -/
def forestPredict (scaledFeatures : Fin 5 → ℝ) : ℝ :=
  let Temp_s := scaledFeatures 0
  let EC_s := scaledFeatures 1
  let pH_s := scaledFeatures 2
  let pH_Temp_s := scaledFeatures 3
  let EC_pH_s := scaledFeatures 4
  let pred0 := MODEL_intercept
    + MODEL_w_Temp * Temp_s
    + MODEL_w_EC * EC_s
    + MODEL_w_pH * pH_s
    + MODEL_w_pH_Temp * pH_Temp_s
    + MODEL_w_EC_pH * EC_pH_s
  let pred1 := pred0
    + 0.04 * Temp_s * EC_s
    + 0.03 * EC_s * pH_s
    + 0.02 * Temp_s * pH_Temp_s
  let pred2 := MODEL_saturation * Real.tanh (pred1 / MODEL_saturation)
  max (-0.05) (min pred2 3.2)

/-- Emerson equilibrium converter, transcribed from `emersonPhysics`. -/
def emersonPhysics (tan_mg_L temp_c pH : ℝ) : ℝ :=
  let temp_k := temp_c + 273.15
  let pKa := 0.09018 + 2729.92 / temp_k
  let nh3_fraction := 1.0 / (1.0 + (10 : ℝ) ^ (pKa - pH))
  tan_mg_L * nh3_fraction

/-- Unionized ammonia fraction appearing inside `emersonPhysics`. -/
def nh3Fraction (temp_c pH : ℝ) : ℝ :=
  1.0 / (1.0 + (10 : ℝ) ^ ((0.09018 + 2729.92 / (temp_c + 273.15)) - pH))

/-- Risk classifier, transcribed from `classifyRisk`. -/
def classifyRisk (toxicNH3 : ℝ) : RiskTier :=
  if toxicNH3 < 0.05 then .SAFE
  else if toxicNH3 < 0.34 then .WARNING
  else .CRITICAL

/-- Result record of one pipeline invocation. -/
structure PredictionResult where
  TAN : ℝ
  toxicNH3 : ℝ
  risk : RiskTier

/-- Full pipeline, transcribed from `predictAmmoniaRisk`. -/
def predictAmmoniaRisk (temp_c pH ec : ℝ) : PredictionResult :=
  let pH_Temp := pH * temp_c
  let EC_pH := ec * pH
  let raw : Fin 5 → ℝ := ![temp_c, ec, pH, pH_Temp, EC_pH]
  let scaled := standardScale raw
  let pred_log := forestPredict scaled
  let pred_TAN := Real.exp pred_log - 1
  let toxic_NH3 := emersonPhysics pred_TAN temp_c pH
  let risk := classifyRisk toxic_NH3
  { TAN := max 0 pred_TAN, toxicNH3 := max 0 toxic_NH3, risk := risk }

/-- One cell of the heatmap grid: sample point plus prediction fields. -/
structure HeatCell where
  temp : ℝ
  pH : ℝ
  TAN : ℝ
  toxicNH3 : ℝ
  risk : RiskTier

/-- Placeholder cell used only as the default of `List.getD`. -/
def dummyCell : HeatCell :=
  { temp := 0, pH := 0, TAN := 0, toxicNH3 := 0, risk := .SAFE }

/-- Grid evaluator, transcribed from `generateHeatmapData` with the
JavaScript numbers read as reals (real division, so the `steps = 1`
special-value behaviour is modelled separately over `JSVal`). -/
def generateHeatmapData (tempRange phRange : ℝ × ℝ) (ec : ℝ)
    (steps : ℕ) : List (List HeatCell) :=
  let tStep := (tempRange.2 - tempRange.1) / ((steps : ℝ) - 1)
  let pStep := (phRange.2 - phRange.1) / ((steps : ℝ) - 1)
  (List.range steps).map fun (i : ℕ) =>
    (List.range steps).map fun (j : ℕ) =>
      let t := tempRange.1 + (i : ℝ) * tStep
      let p := phRange.1 + (j : ℝ) * pStep
      let r := predictAmmoniaRisk t p ec
      { temp := t, pH := p, TAN := r.TAN, toxicNH3 := r.toxicNH3,
        risk := r.risk }

/-- Spec-side linear combination: intercept plus the five named weights
times the scaled features, in the spec's order. -/
def linearCombination (s : Fin 5 → ℝ) : ℝ :=
  MODEL_intercept
    + MODEL_w_Temp * s 0
    + MODEL_w_EC * s 1
    + MODEL_w_pH * s 2
    + MODEL_w_pH_Temp * s 3
    + MODEL_w_EC_pH * s 4

/-- Spec-side fixed second-order cross terms. -/
def crossTerms (s : Fin 5 → ℝ) : ℝ :=
  0.04 * s 0 * s 1 + 0.03 * s 1 * s 2 + 0.02 * s 0 * s 3

/-- Spec-side saturation envelope `2.8 * tanh (v / 2.8)`. -/
def saturate (v : ℝ) : ℝ := 2.8 * Real.tanh (v / 2.8)

/-- Spec-side hard clamp of `x` to the interval `[lo, hi]`. -/
def clamp (lo hi x : ℝ) : ℝ := max lo (min x hi)

/-- JavaScript number semantics restricted to the special values the
engine can produce: NaN, plus and minus Infinity, and finite reals
(signed zero is not distinguished). -/
inductive JSVal where
  | nan : JSVal
  | inf : JSVal
  | ninf : JSVal
  | num : ℝ → JSVal

/-- JavaScript addition on `JSVal`. -/
def jadd : JSVal → JSVal → JSVal
  | .nan, _ => .nan
  | _, .nan => .nan
  | .inf, .ninf => .nan
  | .ninf, .inf => .nan
  | .inf, _ => .inf
  | _, .inf => .inf
  | .ninf, _ => .ninf
  | _, .ninf => .ninf
  | .num a, .num b => .num (a + b)

/-- JavaScript negation on `JSVal`. -/
def jneg : JSVal → JSVal
  | .nan => .nan
  | .inf => .ninf
  | .ninf => .inf
  | .num a => .num (-a)

/-- JavaScript subtraction on `JSVal`. -/
def jsub (a b : JSVal) : JSVal := jadd a (jneg b)

/-- JavaScript multiplication on `JSVal`; zero times an infinity is
NaN. -/
def jmul : JSVal → JSVal → JSVal
  | .nan, _ => .nan
  | _, .nan => .nan
  | .inf, .inf => .inf
  | .inf, .ninf => .ninf
  | .ninf, .inf => .ninf
  | .ninf, .ninf => .inf
  | .inf, .num b => if 0 < b then .inf else if b < 0 then .ninf else .nan
  | .num a, .inf => if 0 < a then .inf else if a < 0 then .ninf else .nan
  | .ninf, .num b => if 0 < b then .ninf else if b < 0 then .inf else .nan
  | .num a, .ninf => if 0 < a then .ninf else if a < 0 then .inf else .nan
  | .num a, .num b => .num (a * b)

/-- JavaScript division on `JSVal`; a nonzero finite number divided by
zero gives a signed infinity, zero divided by zero gives NaN. -/
def jdiv : JSVal → JSVal → JSVal
  | .nan, _ => .nan
  | _, .nan => .nan
  | .inf, .inf => .nan
  | .inf, .ninf => .nan
  | .ninf, .inf => .nan
  | .ninf, .ninf => .nan
  | .inf, .num b => if 0 ≤ b then .inf else .ninf
  | .ninf, .num b => if 0 ≤ b then .ninf else .inf
  | .num _, .inf => .num 0
  | .num _, .ninf => .num 0
  | .num a, .num b =>
      if b = 0 then
        (if 0 < a then .inf else if a < 0 then .ninf else .nan)
      else .num (a / b)

/-- JavaScript `Math.max`: NaN if either argument is NaN. -/
def jmax : JSVal → JSVal → JSVal
  | .nan, _ => .nan
  | _, .nan => .nan
  | .inf, _ => .inf
  | _, .inf => .inf
  | .ninf, y => y
  | x, .ninf => x
  | .num a, .num b => .num (max a b)

/-- JavaScript `Math.min`: NaN if either argument is NaN. -/
def jmin : JSVal → JSVal → JSVal
  | .nan, _ => .nan
  | _, .nan => .nan
  | .ninf, _ => .ninf
  | _, .ninf => .ninf
  | .inf, y => y
  | x, .inf => x
  | .num a, .num b => .num (min a b)

/-- JavaScript strict less-than: false whenever an argument is NaN. -/
def jlt : JSVal → JSVal → Bool
  | .nan, _ => false
  | _, .nan => false
  | .inf, _ => false
  | .ninf, .ninf => false
  | .ninf, _ => true
  | .num _, .inf => true
  | .num _, .ninf => false
  | .num a, .num b => decide (a < b)

/-- JavaScript `Math.tanh` on `JSVal`. -/
def jtanh : JSVal → JSVal
  | .nan => .nan
  | .inf => .num 1
  | .ninf => .num (-1)
  | .num a => .num (Real.tanh a)

/-- JavaScript `Math.pow` with base 10 on `JSVal`. -/
def jpow10 : JSVal → JSVal
  | .nan => .nan
  | .inf => .inf
  | .ninf => .num 0
  | .num a => .num ((10 : ℝ) ^ a)

/-- JavaScript `Math.expm1` on `JSVal`. -/
def jexpm1 : JSVal → JSVal
  | .nan => .nan
  | .inf => .inf
  | .ninf => .num (-1)
  | .num a => .num (Real.exp a - 1)

/-- StandardScaler transform under JavaScript number semantics. -/
def standardScaleJS (features : Fin 5 → JSVal) : Fin 5 → JSVal :=
  fun i =>
    jdiv (jsub (features i) (.num (SCALER_MEANS i))) (.num (SCALER_STDS i))

/-- Regression surrogate under JavaScript number semantics, transcribed
from `forestPredict` with JavaScript left-to-right evaluation order. -/
def forestPredictJS (scaledFeatures : Fin 5 → JSVal) : JSVal :=
  let Temp_s := scaledFeatures 0
  let EC_s := scaledFeatures 1
  let pH_s := scaledFeatures 2
  let pH_Temp_s := scaledFeatures 3
  let EC_pH_s := scaledFeatures 4
  let pred0 := jadd (jadd (jadd (jadd (jadd (.num MODEL_intercept)
    (jmul (.num MODEL_w_Temp) Temp_s)) (jmul (.num MODEL_w_EC) EC_s))
    (jmul (.num MODEL_w_pH) pH_s)) (jmul (.num MODEL_w_pH_Temp) pH_Temp_s))
    (jmul (.num MODEL_w_EC_pH) EC_pH_s)
  let pred1 := jadd (jadd (jadd pred0
    (jmul (jmul (.num 0.04) Temp_s) EC_s))
    (jmul (jmul (.num 0.03) EC_s) pH_s))
    (jmul (jmul (.num 0.02) Temp_s) pH_Temp_s)
  let pred2 := jmul (.num MODEL_saturation)
    (jtanh (jdiv pred1 (.num MODEL_saturation)))
  jmax (.num (-0.05)) (jmin pred2 (.num 3.2))

/-- Emerson converter under JavaScript number semantics. -/
def emersonPhysicsJS (tan_mg_L temp_c pH : JSVal) : JSVal :=
  let temp_k := jadd temp_c (.num 273.15)
  let pKa := jadd (.num 0.09018) (jdiv (.num 2729.92) temp_k)
  let nh3_fraction := jdiv (.num 1)
    (jadd (.num 1) (jpow10 (jsub pKa pH)))
  jmul tan_mg_L nh3_fraction

/-- Risk classifier under JavaScript number semantics; both comparisons
are false on NaN, so NaN falls through to CRITICAL. -/
def classifyRiskJS (toxicNH3 : JSVal) : RiskTier :=
  if jlt toxicNH3 (.num 0.05) then .SAFE
  else if jlt toxicNH3 (.num 0.34) then .WARNING
  else .CRITICAL

/-- Result record of a pipeline invocation under JavaScript number
semantics. -/
structure JSPredictionResult where
  TAN : JSVal
  toxicNH3 : JSVal
  risk : RiskTier

/-- Full pipeline under JavaScript number semantics, transcribed from
`predictAmmoniaRisk`. -/
def predictAmmoniaRiskJS (temp_c pH ec : JSVal) : JSPredictionResult :=
  let pH_Temp := jmul pH temp_c
  let EC_pH := jmul ec pH
  let raw : Fin 5 → JSVal := ![temp_c, ec, pH, pH_Temp, EC_pH]
  let scaled := standardScaleJS raw
  let pred_log := forestPredictJS scaled
  let pred_TAN := jexpm1 pred_log
  let toxic_NH3 := emersonPhysicsJS pred_TAN temp_c pH
  let risk := classifyRiskJS toxic_NH3
  { TAN := jmax (.num 0) pred_TAN, toxicNH3 := jmax (.num 0) toxic_NH3,
    risk := risk }

/-- Heatmap cell under JavaScript number semantics. -/
structure JSHeatCell where
  temp : JSVal
  pH : JSVal
  TAN : JSVal
  toxicNH3 : JSVal
  risk : RiskTier

/-- Grid evaluator under JavaScript number semantics, transcribed from
`generateHeatmapData`: the step is a true JavaScript division, so at
steps = 1 it divides by zero. -/
def generateHeatmapDataJS (tempRange phRange : JSVal × JSVal) (ec : JSVal)
    (steps : ℕ) : List (List JSHeatCell) :=
  let tStep := jdiv (jsub tempRange.2 tempRange.1) (.num ((steps : ℝ) - 1))
  let pStep := jdiv (jsub phRange.2 phRange.1) (.num ((steps : ℝ) - 1))
  (List.range steps).map fun (i : ℕ) =>
    (List.range steps).map fun (j : ℕ) =>
      let t := jadd tempRange.1 (jmul (.num (i : ℝ)) tStep)
      let p := jadd phRange.1 (jmul (.num (j : ℝ)) pStep)
      let r := predictAmmoniaRiskJS t p ec
      { temp := t, pH := p, TAN := r.TAN, toxicNH3 := r.toxicNH3,
        risk := r.risk }

/-- C1: for every 5-tuple of scaled features the regression surrogate
computes exactly the clamp (to `[-0.05, 3.2]`) of the saturation
(`2.8 * tanh (v / 2.8)`) of the linear combination plus the three fixed
cross terms, in that order. -/
theorem forestPredict_eq_spec (s : Fin 5 → ℝ) :
    forestPredict s =
      clamp (-0.05) 3.2 (saturate (linearCombination s + crossTerms s)) := by
  unfold forestPredict clamp saturate linearCombination crossTerms
    MODEL_saturation
  norm_num [add_assoc]

/-- C2: the risk classifier is total on the reals with half-open tier
boundaries: `SAFE` exactly below `0.05`, `WARNING` exactly on
`[0.05, 0.34)`, `CRITICAL` exactly from `0.34` up; in particular
`classifyRisk 0.05 = WARNING` and `classifyRisk 0.34 = CRITICAL`. -/
theorem classifyRisk_tiers :
    (∀ x : ℝ,
        (classifyRisk x = .SAFE ↔ x < 0.05) ∧
        (classifyRisk x = .WARNING ↔ 0.05 ≤ x ∧ x < 0.34) ∧
        (classifyRisk x = .CRITICAL ↔ 0.34 ≤ x)) ∧
      classifyRisk 0.05 = .WARNING ∧ classifyRisk 0.34 = .CRITICAL := by
  refine ⟨fun x => ⟨?_, ?_, ?_⟩, ?_, ?_⟩
  · unfold classifyRisk
    split_ifs with h h2 <;> simpa using h
  · unfold classifyRisk
    split_ifs with h h2
    · exact iff_of_false (by decide)
        (fun hh => absurd hh.1 (not_le.mpr h))
    · exact iff_of_true rfl ⟨not_lt.mp h, h2⟩
    · exact iff_of_false (by decide)
        (fun hh => absurd hh.2 h2)
  · unfold classifyRisk
    split_ifs with h h2
    · exact iff_of_false (by decide)
        (fun hh => h.not_le (le_trans (by norm_num) hh))
    · exact iff_of_false (by decide)
        (fun hh => absurd h2 (not_lt.mpr hh))
    · exact iff_of_true rfl (not_lt.mp h2)
  · unfold classifyRisk
    rw [if_neg (by norm_num), if_pos (by norm_num)]
  · unfold classifyRisk
    rw [if_neg (by norm_num), if_neg (by norm_num)]

/-- The Emerson converter is the product of TAN with the unionized
fraction. -/
theorem emersonPhysics_eq_mul_fraction (tan_mg_L temp_c pH : ℝ) :
    emersonPhysics tan_mg_L temp_c pH = tan_mg_L * nh3Fraction temp_c pH := rfl

/-- The map `e ↦ 1 / (1 + 10 ^ e)` is strictly antitone. -/
theorem one_div_one_add_rpow_strictAnti {a b : ℝ} (h : a < b) :
    1 / (1 + (10 : ℝ) ^ b) < 1 / (1 + (10 : ℝ) ^ a) := by
  have hab : (10 : ℝ) ^ a < (10 : ℝ) ^ b :=
    (Real.rpow_lt_rpow_left_iff (by norm_num)).mpr h
  have ha : (0 : ℝ) < 1 + (10 : ℝ) ^ a := by positivity
  exact one_div_lt_one_div_of_lt ha (by linarith)

/-- The unionized fraction is strictly increasing in pH. -/
theorem nh3Fraction_strictMono_pH (t p1 p2 : ℝ) (hp : p1 < p2) :
    nh3Fraction t p1 < nh3Fraction t p2 := by
  unfold nh3Fraction
  have := one_div_one_add_rpow_strictAnti
    (a := (0.09018 + 2729.92 / (t + 273.15)) - p2)
    (b := (0.09018 + 2729.92 / (t + 273.15)) - p1) (by linarith)
  norm_num at this ⊢
  linarith

/-- The unionized fraction is strictly increasing in temperature above
absolute zero. -/
theorem nh3Fraction_strictMono_temp (t1 t2 p : ℝ) (h0 : -273.15 < t1)
    (ht : t1 < t2) : nh3Fraction t1 p < nh3Fraction t2 p := by
  unfold nh3Fraction
  have hk1 : (0 : ℝ) < t1 + 273.15 := by linarith
  have hk2 : t1 + 273.15 < t2 + 273.15 := by linarith
  have hdiv : 2729.92 / (t2 + 273.15) < 2729.92 / (t1 + 273.15) :=
    div_lt_div_of_pos_left (by norm_num) hk1 hk2
  have := one_div_one_add_rpow_strictAnti
    (a := (0.09018 + 2729.92 / (t2 + 273.15)) - p)
    (b := (0.09018 + 2729.92 / (t1 + 273.15)) - p) (by linarith)
  norm_num at this ⊢
  linarith

/-- C5: holding TAN (positive) and temperature fixed, the converter is
strictly increasing in pH; holding TAN (positive) and pH fixed it is
strictly increasing in temperature above absolute zero; equivalently the
unionized fraction is strictly increasing in both arguments. -/
theorem emersonPhysics_strictMono (tan_mg_L t t1 t2 p p1 p2 : ℝ) :
    (0 < tan_mg_L → p1 < p2 →
        emersonPhysics tan_mg_L t p1 < emersonPhysics tan_mg_L t p2) ∧
    (0 < tan_mg_L → -273.15 < t1 → t1 < t2 →
        emersonPhysics tan_mg_L t1 p < emersonPhysics tan_mg_L t2 p) ∧
    (p1 < p2 → nh3Fraction t p1 < nh3Fraction t p2) ∧
    (-273.15 < t1 → t1 < t2 → nh3Fraction t1 p < nh3Fraction t2 p) := by
  refine ⟨fun htan hp => ?_, fun htan h0 ht => ?_,
    fun hp => nh3Fraction_strictMono_pH t p1 p2 hp,
    fun h0 ht => nh3Fraction_strictMono_temp t1 t2 p h0 ht⟩
  · rw [emersonPhysics_eq_mul_fraction, emersonPhysics_eq_mul_fraction]
    exact mul_lt_mul_of_pos_left (nh3Fraction_strictMono_pH t p1 p2 hp) htan
  · rw [emersonPhysics_eq_mul_fraction, emersonPhysics_eq_mul_fraction]
    exact mul_lt_mul_of_pos_left
      (nh3Fraction_strictMono_temp t1 t2 p h0 ht) htan

/-- Witness for C5 at TAN 1, temperature 25 (or 20 against 30), and pH
7 against 7.5. -/
theorem emersonPhysics_strictMono_witness :
    ((0 : ℝ) < 1 ∧ (7 : ℝ) < 7.5 ∧
        emersonPhysics 1 25 7 < emersonPhysics 1 25 7.5) ∧
    ((-273.15 : ℝ) < 20 ∧ (20 : ℝ) < 30 ∧
        emersonPhysics 1 20 7 < emersonPhysics 1 30 7) ∧
    nh3Fraction 25 7 < nh3Fraction 25 7.5 ∧
    nh3Fraction 20 7 < nh3Fraction 30 7 := by
  refine ⟨⟨by norm_num, by norm_num, ?_⟩, ⟨by norm_num, by norm_num, ?_⟩,
    ?_, ?_⟩
  · exact (emersonPhysics_strictMono 1 25 0 0 0 7 7.5).1
      (by norm_num) (by norm_num)
  · exact (emersonPhysics_strictMono 1 0 20 30 7 0 0).2.1
      (by norm_num) (by norm_num) (by norm_num)
  · exact (emersonPhysics_strictMono 1 25 0 0 0 7 7.5).2.2.1 (by norm_num)
  · exact (emersonPhysics_strictMono 1 0 20 30 7 0 0).2.2.2
      (by norm_num) (by norm_num)

/-- Powers of ten with exponent strictly between 1 and 2 lie strictly
between 10 and 100. -/
theorem rpow_ten_exponent_bounds {e : ℝ} (h1 : 1 < e) (h2 : e < 2) :
    10 < (10 : ℝ) ^ e ∧ (10 : ℝ) ^ e < 100 := by
  constructor
  · calc (10 : ℝ) = (10 : ℝ) ^ (1 : ℝ) := (Real.rpow_one 10).symm
      _ < (10 : ℝ) ^ e := (Real.rpow_lt_rpow_left_iff (by norm_num)).mpr h1
  · calc (10 : ℝ) ^ e < (10 : ℝ) ^ (2 : ℝ) :=
        (Real.rpow_lt_rpow_left_iff (by norm_num)).mpr h2
      _ = 100 := by
        rw [show (2 : ℝ) = ((2 : ℕ) : ℝ) by norm_num, Real.rpow_natCast]
        norm_num

/-- Bounds on the Emerson converter at TAN 1, 26.85 degrees C (300 K),
pH 7.2: the value lies strictly between 1/101 and 1/11. -/
theorem emerson_point_bounds :
    1 / 101 < emersonPhysics 1 26.85 7.2 ∧
      emersonPhysics 1 26.85 7.2 < 1 / 11 := by
  have he : emersonPhysics 1 26.85 7.2 =
      1 / (1 + (10 : ℝ) ^
        (((0.09018 + 2729.92 / (26.85 + 273.15)) - 7.2 : ℝ))) := by
    unfold emersonPhysics
    norm_num
  have h1 : (1 : ℝ) < (0.09018 + 2729.92 / (26.85 + 273.15)) - 7.2 := by
    norm_num
  have h2 : ((0.09018 + 2729.92 / (26.85 + 273.15)) - 7.2 : ℝ) < 2 := by
    norm_num
  obtain ⟨hlo, hhi⟩ := rpow_ten_exponent_bounds h1 h2
  have hpos : (0 : ℝ) <
      1 + (10 : ℝ) ^ (((0.09018 + 2729.92 / (26.85 + 273.15)) - 7.2 : ℝ)) :=
    by positivity
  rw [he]
  constructor
  · exact one_div_lt_one_div_of_lt hpos (by linarith)
  · exact one_div_lt_one_div_of_lt (by norm_num) (by linarith)

/-- C6 as stated is false: at TAN 1, 26.85 degrees C, pH 7.2 the
converter returns a value below 0.1 (in fact about 0.0101), not
approximately 0.3943; and the claimed pKa constant 9.18327 is not the
value of 0.09018 + 2729.92/300. -/
theorem emersonPhysics_at_300K_not_approx :
    emersonPhysics 1 26.85 7.2 < 0.1 ∧
      (0.09018 + 2729.92 / 300 : ℝ) ≠ 9.18327 := by
  constructor
  · have := emerson_point_bounds.2
    linarith
  · norm_num

/-- C6 amended: at TAN 1, 26.85 degrees C (300 K), pH 7.2 the converter
returns exactly 1/(1 + 10 ^ (pKa - 7.2)) with
pKa = 0.09018 + 2729.92/300 = 1378487/150000 (about 9.18991), a value
strictly between 1/101 and 1/11 (about 0.0101 mg/L). -/
theorem emersonPhysics_at_300K_value :
    emersonPhysics 1 26.85 7.2 =
      1 / (1 + (10 : ℝ) ^ (((0.09018 + 2729.92 / 300) - 7.2 : ℝ))) ∧
    (0.09018 + 2729.92 / 300 : ℝ) = 1378487 / 150000 ∧
    1 / 101 < emersonPhysics 1 26.85 7.2 ∧
    emersonPhysics 1 26.85 7.2 < 1 / 11 := by
  refine ⟨?_, by norm_num, emerson_point_bounds.1, emerson_point_bounds.2⟩
  unfold emersonPhysics
  norm_num

/-- C4: for every input triple the returned TAN and toxicNH3 fields are
nonnegative (both are floored with `max 0`). -/
theorem predictAmmoniaRisk_nonneg (temp_c pH ec : ℝ) :
    0 ≤ (predictAmmoniaRisk temp_c pH ec).TAN ∧
      0 ≤ (predictAmmoniaRisk temp_c pH ec).toxicNH3 := by
  unfold predictAmmoniaRisk
  exact ⟨le_max_left 0 _, le_max_left 0 _⟩

/-- C8: for every input 5-tuple of scaled features the surrogate's
output lies in the closed interval `[-0.05, 3.2]`. -/
theorem forestPredict_bounds (s : Fin 5 → ℝ) :
    -0.05 ≤ forestPredict s ∧ forestPredict s ≤ 3.2 := by
  unfold forestPredict
  constructor
  · exact le_max_left _ _
  · exact max_le (by norm_num) (min_le_right _ _)

/-- Temperature coordinate of cell (i, j) of the heatmap grid. -/
theorem heatmap_cell_temp (tempRange phRange : ℝ × ℝ) (ec : ℝ)
    (steps i j : ℕ) (hi : i < steps) (hj : j < steps) :
    (((generateHeatmapData tempRange phRange ec steps).getD i []).getD j
        dummyCell).temp =
      tempRange.1 +
        (i : ℝ) * ((tempRange.2 - tempRange.1) / ((steps : ℝ) - 1)) := by
  unfold generateHeatmapData
  rw [List.getD_eq_getElem?_getD (((List.range steps).map _)) i,
    List.getElem?_map, List.getElem?_range hi]
  simp only [Option.map_some', Option.getD_some]
  rw [List.getD_eq_getElem?_getD, List.getElem?_map, List.getElem?_range hj]
  simp only [Option.map_some', Option.getD_some]

/-- The pH coordinate of cell (i, j) of the heatmap grid. -/
theorem heatmap_cell_pH (tempRange phRange : ℝ × ℝ) (ec : ℝ)
    (steps i j : ℕ) (hi : i < steps) (hj : j < steps) :
    (((generateHeatmapData tempRange phRange ec steps).getD i []).getD j
        dummyCell).pH =
      phRange.1 +
        (j : ℝ) * ((phRange.2 - phRange.1) / ((steps : ℝ) - 1)) := by
  unfold generateHeatmapData
  rw [List.getD_eq_getElem?_getD (((List.range steps).map _)) i,
    List.getElem?_map, List.getElem?_range hi]
  simp only [Option.map_some', Option.getD_some]
  rw [List.getD_eq_getElem?_getD, List.getElem?_map, List.getElem?_range hj]
  simp only [Option.map_some', Option.getD_some]

/-- C7: for steps at least 2 the grid evaluator returns exactly steps
rows of steps cells each, row-major by temperature then pH, with cell
(0,0) at the low ends, cell (steps-1, steps-1) at the high ends, and
every cell (i, j) at the evenly spaced sample points (linear
interpolation inclusive of both endpoints). -/
theorem generateHeatmapData_grid_shape (a b c d ec : ℝ) (steps : ℕ)
    (hs : 2 ≤ steps) :
    (generateHeatmapData (a, b) (c, d) ec steps).length = steps ∧
    (∀ row ∈ generateHeatmapData (a, b) (c, d) ec steps,
        row.length = steps) ∧
    (∀ i j : ℕ, i < steps → j < steps →
        (((generateHeatmapData (a, b) (c, d) ec steps).getD i []).getD j
            dummyCell).temp =
          a + (i : ℝ) * ((b - a) / ((steps : ℝ) - 1)) ∧
        (((generateHeatmapData (a, b) (c, d) ec steps).getD i []).getD j
            dummyCell).pH =
          c + (j : ℝ) * ((d - c) / ((steps : ℝ) - 1))) ∧
    (((generateHeatmapData (a, b) (c, d) ec steps).getD 0 []).getD 0
        dummyCell).temp = a ∧
    (((generateHeatmapData (a, b) (c, d) ec steps).getD 0 []).getD 0
        dummyCell).pH = c ∧
    (((generateHeatmapData (a, b) (c, d) ec steps).getD (steps - 1)
        []).getD (steps - 1) dummyCell).temp = b ∧
    (((generateHeatmapData (a, b) (c, d) ec steps).getD (steps - 1)
        []).getD (steps - 1) dummyCell).pH = d := by
  have hpos : 0 < steps := by omega
  have hone : (1 : ℝ) ≤ (steps : ℝ) - 1 := by
    have : (2 : ℝ) ≤ (steps : ℝ) := by exact_mod_cast hs
    linarith
  have hne : ((steps : ℝ) - 1) ≠ 0 := by linarith
  have hcast : (((steps - 1 : ℕ)) : ℝ) = (steps : ℝ) - 1 := by
    have := Nat.cast_sub (by omega : 1 ≤ steps) (R := ℝ)
    simpa using this
  refine ⟨?_, ?_, ?_, ?_, ?_, ?_, ?_⟩
  · unfold generateHeatmapData
    rw [List.length_map, List.length_range]
  · intro row hrow
    unfold generateHeatmapData at hrow
    simp only [List.mem_map, List.mem_range] at hrow
    obtain ⟨k, hk, rfl⟩ := hrow
    rw [List.length_map, List.length_range]
  · intro i j hi hj
    exact ⟨heatmap_cell_temp (a, b) (c, d) ec steps i j hi hj,
      heatmap_cell_pH (a, b) (c, d) ec steps i j hi hj⟩
  · rw [heatmap_cell_temp (a, b) (c, d) ec steps 0 0 hpos hpos]
    norm_num
  · rw [heatmap_cell_pH (a, b) (c, d) ec steps 0 0 hpos hpos]
    norm_num
  · rw [heatmap_cell_temp (a, b) (c, d) ec steps (steps - 1) (steps - 1)
      (by omega) (by omega)]
    rw [hcast]
    field_simp
  · rw [heatmap_cell_pH (a, b) (c, d) ec steps (steps - 1) (steps - 1)
      (by omega) (by omega)]
    rw [hcast]
    field_simp

/-- Witness for C7 on the unit square with 2 steps. -/
theorem generateHeatmapData_grid_shape_witness :
    2 ≤ 2 ∧
    ((generateHeatmapData (0, 1) (0, 1) 0 2).length = 2 ∧
    (∀ row ∈ generateHeatmapData (0, 1) (0, 1) 0 2,
        row.length = 2) ∧
    (∀ i j : ℕ, i < 2 → j < 2 →
        (((generateHeatmapData (0, 1) (0, 1) 0 2).getD i []).getD j
            dummyCell).temp =
          0 + (i : ℝ) * ((1 - 0) / (((2 : ℕ) : ℝ) - 1)) ∧
        (((generateHeatmapData (0, 1) (0, 1) 0 2).getD i []).getD j
            dummyCell).pH =
          0 + (j : ℝ) * ((1 - 0) / (((2 : ℕ) : ℝ) - 1))) ∧
    (((generateHeatmapData (0, 1) (0, 1) 0 2).getD 0 []).getD 0
        dummyCell).temp = 0 ∧
    (((generateHeatmapData (0, 1) (0, 1) 0 2).getD 0 []).getD 0
        dummyCell).pH = 0 ∧
    (((generateHeatmapData (0, 1) (0, 1) 0 2).getD (2 - 1) []).getD (2 - 1)
        dummyCell).temp = 1 ∧
    (((generateHeatmapData (0, 1) (0, 1) 0 2).getD (2 - 1) []).getD (2 - 1)
        dummyCell).pH = 1) :=
  ⟨by decide, generateHeatmapData_grid_shape 0 1 0 1 0 2 (by decide)⟩

/-- C9: the risk field always equals `classifyRisk` applied to the
floored toxic value reported in the same result. -/
theorem risk_consistent_with_floored_toxic (temp_c pH ec : ℝ) :
    (predictAmmoniaRisk temp_c pH ec).risk =
      classifyRisk ((predictAmmoniaRisk temp_c pH ec).toxicNH3) := by
  unfold predictAmmoniaRisk
  set v := emersonPhysics (Real.exp (forestPredict (standardScale
    ![temp_c, ec, pH, pH * temp_c, ec * pH])) - 1) temp_c pH with hv
  simp only
  rcases le_or_lt 0 v with h | h
  · rw [max_eq_right h]
  · rw [max_eq_left h.le]
    unfold classifyRisk
    rw [if_pos (by linarith : v < 0.05), if_pos (by norm_num : (0 : ℝ) < 0.05)]

end

/-- Adding NaN on the left gives NaN. -/
theorem jadd_nan_left (y : JSVal) : jadd .nan y = .nan := by
  cases y <;> rfl

/-- Adding NaN on the right gives NaN. -/
theorem jadd_nan_right (x : JSVal) : jadd x .nan = .nan := by
  cases x <;> rfl

/-- Subtracting from NaN gives NaN. -/
theorem jsub_nan_left (y : JSVal) : jsub .nan y = .nan := by
  unfold jsub
  exact jadd_nan_left _

/-- Subtracting NaN gives NaN. -/
theorem jsub_nan_right (x : JSVal) : jsub x .nan = .nan := by
  unfold jsub jneg
  exact jadd_nan_right _

/-- Multiplying by NaN on the left gives NaN. -/
theorem jmul_nan_left (y : JSVal) : jmul .nan y = .nan := by
  cases y <;> rfl

/-- Multiplying by NaN on the right gives NaN. -/
theorem jmul_nan_right (x : JSVal) : jmul x .nan = .nan := by
  cases x <;> rfl

/-- Dividing NaN gives NaN. -/
theorem jdiv_nan_left (y : JSVal) : jdiv .nan y = .nan := by
  cases y <;> rfl

/-- The maximum with NaN is NaN. -/
theorem jmax_nan_right (x : JSVal) : jmax x .nan = .nan := by
  cases x <;> rfl

/-- The minimum with NaN is NaN. -/
theorem jmin_nan_left (y : JSVal) : jmin .nan y = .nan := by
  cases y <;> rfl

/-- NaN compares false on the left of strict less-than. -/
theorem jlt_nan_left (y : JSVal) : jlt .nan y = false := by
  cases y <;> rfl

/-- tanh of NaN is NaN. -/
theorem jtanh_nan : jtanh .nan = .nan := rfl

/-- expm1 of NaN is NaN. -/
theorem jexpm1_nan : jexpm1 .nan = .nan := rfl

/-- Scaling a NaN feature gives NaN. -/
theorem standardScaleJS_nan (f : Fin 5 → JSVal) (i : Fin 5)
    (h : f i = .nan) : standardScaleJS f i = .nan := by
  unfold standardScaleJS
  rw [h, jsub_nan_left, jdiv_nan_left]

/-- The surrogate returns NaN whenever any scaled feature is NaN. -/
theorem forestPredictJS_nan (s : Fin 5 → JSVal)
    (h : s 0 = .nan ∨ s 1 = .nan ∨ s 2 = .nan ∨ s 3 = .nan ∨ s 4 = .nan) :
    forestPredictJS s = .nan := by
  rcases h with h | h | h | h | h <;>
    simp only [forestPredictJS, h, jmul_nan_left, jmul_nan_right,
      jadd_nan_left, jadd_nan_right, jdiv_nan_left, jtanh_nan,
      jmin_nan_left, jmax_nan_right]

/-- The Emerson converter returns NaN on NaN TAN. -/
theorem emersonPhysicsJS_nan_left (t p : JSVal) :
    emersonPhysicsJS .nan t p = .nan := by
  simp only [emersonPhysicsJS, jmul_nan_left]

/-- The classifier sends NaN to CRITICAL: both threshold comparisons
are false on NaN. -/
theorem classifyRiskJS_nan : classifyRiskJS .nan = .CRITICAL := by
  unfold classifyRiskJS
  rw [jlt_nan_left, jlt_nan_left]
  rfl

/-- A NaN in any of the three inputs makes the reported TAN and
toxicNH3 NaN and the risk CRITICAL. -/
theorem predictAmmoniaRiskJS_nan_fields (temp_c pH ec : JSVal)
    (h : temp_c = .nan ∨ pH = .nan ∨ ec = .nan) :
    (predictAmmoniaRiskJS temp_c pH ec).TAN = .nan ∧
    (predictAmmoniaRiskJS temp_c pH ec).toxicNH3 = .nan ∧
    (predictAmmoniaRiskJS temp_c pH ec).risk = .CRITICAL := by
  have hfp : forestPredictJS (standardScaleJS
      ![temp_c, ec, pH, jmul pH temp_c, jmul ec pH]) = .nan := by
    rcases h with h | h | h
    · exact forestPredictJS_nan _
        (Or.inl (standardScaleJS_nan _ 0 (by rw [show
          (![temp_c, ec, pH, jmul pH temp_c, jmul ec pH] : Fin 5 → JSVal) 0
            = temp_c from rfl, h])))
    · exact forestPredictJS_nan _
        (Or.inr (Or.inr (Or.inl (standardScaleJS_nan _ 2 (by rw [show
          (![temp_c, ec, pH, jmul pH temp_c, jmul ec pH] : Fin 5 → JSVal) 2
            = pH from rfl, h])))))
    · exact forestPredictJS_nan _
        (Or.inr (Or.inl (standardScaleJS_nan _ 1 (by rw [show
          (![temp_c, ec, pH, jmul pH temp_c, jmul ec pH] : Fin 5 → JSVal) 1
            = ec from rfl, h]))))
  simp only [predictAmmoniaRiskJS]
  rw [hfp]
  simp only [jexpm1_nan, emersonPhysicsJS_nan_left, classifyRiskJS_nan,
    jmax_nan_right]
  refine ⟨?_, ?_, ?_⟩ <;> trivial

/-- C10: whenever at least one of the three inputs is NaN, the pipeline
reports NaN for TAN and toxicNH3 and classifies the result CRITICAL,
because both threshold comparisons are false on NaN and control falls
through to the CRITICAL branch. -/
theorem predictAmmoniaRiskJS_nan_critical (temp_c pH ec : JSVal)
    (h : temp_c = .nan ∨ pH = .nan ∨ ec = .nan) :
    (predictAmmoniaRiskJS temp_c pH ec).TAN = .nan ∧
    (predictAmmoniaRiskJS temp_c pH ec).toxicNH3 = .nan ∧
    (predictAmmoniaRiskJS temp_c pH ec).risk = .CRITICAL :=
  predictAmmoniaRiskJS_nan_fields temp_c pH ec h

/-- Witness for C10 at NaN temperature, pH 7.2, conductivity 1200. -/
theorem predictAmmoniaRiskJS_nan_critical_witness :
    (JSVal.nan = JSVal.nan ∨ JSVal.num 7.2 = JSVal.nan ∨
        JSVal.num 1200 = JSVal.nan) ∧
    ((predictAmmoniaRiskJS .nan (.num 7.2) (.num 1200)).TAN = .nan ∧
     (predictAmmoniaRiskJS .nan (.num 7.2) (.num 1200)).toxicNH3 = .nan ∧
     (predictAmmoniaRiskJS .nan (.num 7.2) (.num 1200)).risk = .CRITICAL) :=
  ⟨Or.inl rfl,
    predictAmmoniaRiskJS_nan_critical .nan (.num 7.2) (.num 1200)
      (Or.inl rfl)⟩

/-- C3: the grid evaluator does not guard the division by steps - 1.
At steps = 1 with temperature range [20, 30] and pH range [6, 8] the
step is 10 / 0 = Infinity, the single cell coordinate is
20 + 0 * Infinity = NaN, and the cell is entirely NaN with risk
CRITICAL, not a cell at the low ends of the ranges. -/
theorem generateHeatmapDataJS_one_step_nan :
    generateHeatmapDataJS (.num 20, .num 30) (.num 6, .num 8)
        (.num 1200) 1 =
      [[{ temp := .nan, pH := .nan, TAN := .nan, toxicNH3 := .nan,
          risk := .CRITICAL }]] := by
  have hcast : (((1 : ℕ) : ℝ) - 1) = 0 := by norm_num
  have hsubt : jsub (JSVal.num 30) (JSVal.num 20) = .num 10 := by
    unfold jsub jneg jadd
    norm_num
  have hsubp : jsub (JSVal.num 8) (JSVal.num 6) = .num 2 := by
    unfold jsub jneg jadd
    norm_num
  have hdivt : jdiv (JSVal.num 10) (JSVal.num 0) = .inf := by
    simp only [jdiv]
    norm_num
  have hdivp : jdiv (JSVal.num 2) (JSVal.num 0) = .inf := by
    simp only [jdiv]
    norm_num
  have hmul : jmul (JSVal.num ((0 : ℕ) : ℝ)) .inf = .nan := by
    simp only [jmul]
    norm_num
  have hfields :=
    predictAmmoniaRiskJS_nan_fields .nan .nan (.num 1200) (Or.inl rfl)
  unfold generateHeatmapDataJS
  rw [show List.range 1 = [0] from rfl]
  simp only [List.map_cons, List.map_nil, hcast]
  rw [hsubt, hsubp, hdivt, hdivp]
  simp only [hmul]
  simp only [jadd_nan_right]
  rw [hfields.1, hfields.2.1, hfields.2.2]
